import Mathlib

/-!
Verification of the Egyptian National ID OCR extractor (`id_extractor.py`).

The program is a single linear pipeline: load an image file and base64-encode
it, build a JSON request payload, POST it to a remote inference endpoint with
bounded exponential-backoff retry, and post-process the returned text into a
14-digit national ID string.

The shallow embedding below models the pure string processing directly, and
models the effectful parts (filesystem reads, HTTP attempts) by passing an
explicit environment: a function from path to file-read outcome, and a
function from 0-indexed attempt number to that attempt's network outcome.
Execution is recorded in a trace (payload built, number of attempts, sleep
delays, log events, final result) so that "no network call is issued" and
"logged with message M" are provable propositions.
-/

namespace IdExtractor

/-- Models Python's `str.isdigit` character predicate on the Unicode ranges
relevant to this program.  Python's `isdigit` is true exactly for characters
of Unicode `Numeric_Type` `Digit` or `Decimal`; this includes the ASCII
digits but also, among others, the Arabic-Indic digits U+0660..U+0669, the
Extended Arabic-Indic (Persian) digits U+06F0..U+06F9, the Devanagari digits,
the superscript and subscript digits and the fullwidth digits.  Characters
outside the ranges listed here (Latin letters, punctuation, whitespace,
Arabic letters, etc.) are not digits in Python either. -/
def pyIsDigit (c : Char) : Bool :=
  let n := c.toNat
  (0x30 ≤ n && n ≤ 0x39)        -- ASCII digits 0-9
  || (0x660 ≤ n && n ≤ 0x669)   -- Arabic-Indic (Eastern Arabic) digits
  || (0x6F0 ≤ n && n ≤ 0x6F9)   -- Extended Arabic-Indic (Persian) digits
  || n == 0xB2 || n == 0xB3 || n == 0xB9            -- Latin-1 superscripts
  || (0x966 ≤ n && n ≤ 0x96F)   -- Devanagari digits
  || n == 0x2070 || (0x2074 ≤ n && n ≤ 0x2079)      -- superscript digits
  || (0x2080 ≤ n && n ≤ 0x2089) -- subscript digits
  || (0xFF10 ≤ n && n ≤ 0xFF19) -- fullwidth digits

/-- An ASCII digit character, `'0'` through `'9'`. -/
def isAsciiDigit (c : Char) : Bool :=
  0x30 ≤ c.toNat && c.toNat ≤ 0x39

/-- Models Python's `str.isspace` on the whitespace characters this program
can meet (ASCII whitespace); `str.strip()` strips exactly these from the
ends of a string. -/
def pyIsSpace (c : Char) : Bool :=
  c == ' ' || c == '\t' || c == '\n' || c == '\r' || c == '\x0b' || c == '\x0c'

/-- Models Python's `text.strip()`: drop whitespace from both ends. -/
def pyStrip (s : String) : String :=
  String.mk (((s.data.dropWhile pyIsSpace).reverse.dropWhile pyIsSpace).reverse)

/-- Models `ARABIC_TO_WESTERN.get(c, c)`: the fixed ten-entry dict mapping
each Eastern Arabic numeral glyph U+0660..U+0669 to its Western Arabic digit,
defaulting to the character itself on every other key. -/
def ARABIC_TO_WESTERN_get (c : Char) : Char :=
  if c = '٠' then '0'
  else if c = '١' then '1'
  else if c = '٢' then '2'
  else if c = '٣' then '3'
  else if c = '٤' then '4'
  else if c = '٥' then '5'
  else if c = '٦' then '6'
  else if c = '٧' then '7'
  else if c = '٨' then '8'
  else if c = '٩' then '9'
  else c

/-- One of the ten Eastern Arabic numeral glyphs U+0660..U+0669 (exactly the
keys of the `ARABIC_TO_WESTERN` dict). -/
def isEasternArabicDigit (c : Char) : Bool :=
  c == '٠' || c == '١' || c == '٢' || c == '٣' || c == '٤'
  || c == '٥' || c == '٦' || c == '٧' || c == '٨' || c == '٩'

/-- `manual_conversion_fallback(text)`: map each character through the
`ARABIC_TO_WESTERN` dict (defaulting to itself), keep only the characters
satisfying Python's `str.isdigit`, and return the first 14 of them when at
least 14 remain, `None` otherwise. -/
def manual_conversion_fallback (text : String) : Option String :=
  let western_digits := String.mk (text.data.map ARABIC_TO_WESTERN_get)
  let final_id := String.mk (western_digits.data.filter pyIsDigit)
  if final_id.length ≥ 14 then some (String.mk (final_id.data.take 14)) else none

/-- The Digit Normalizer exactly as the specification words it: step (1)
replace each Eastern Arabic numeral glyph by its Western equivalent leaving
every other character unchanged, step (2) discard every remaining character
that is not an ASCII digit, step (3) return the first 14 characters when at
least 14 remain and no result otherwise.  (Used to compare the spec's
wording against the source function, whose step (2) keeps every Python
digit, not only the ASCII ones.) -/
def digitNormalizerSpecWords (text : String) : Option String :=
  let step1 := text.data.map ARABIC_TO_WESTERN_get
  let step2 := step1.filter isAsciiDigit
  if step2.length ≥ 14 then some (String.mk (step2.take 14)) else none

/-- The Digit Normalizer with the spec's step (2) amended to match the
source: discard every remaining character that is not a digit in Python's
`str.isdigit` sense (so non-ASCII Unicode digit characters are kept). -/
def digitNormalizerSpecAmended (text : String) : Option String :=
  let step1 := text.data.map ARABIC_TO_WESTERN_get
  let step2 := step1.filter pyIsDigit
  if step2.length ≥ 14 then some (String.mk (step2.take 14)) else none

/-! ### Image loading and base64 encoding -/

/-- Outcome of trying to read the bytes of a file: the file is absent
(`FileNotFoundError`), some other I/O failure occurs, or the read succeeds
with a list of byte values. -/
inductive FileReadResult where
  | notFound
  | readError
  | ok (bytes : List Nat)
  deriving DecidableEq

/-- The standard base64 alphabet used by `base64.b64encode`. -/
def base64Alphabet : List Char :=
  "ABCDEFGHIJKLMNOPQRSTUVWXYZabcdefghijklmnopqrstuvwxyz0123456789+/".data

/-- The base64 alphabet character at index `n` (n < 64). -/
def b64Char (n : Nat) : Char := base64Alphabet.getD n 'A'

/-- Standard base64 encoding of a byte list, with `=` padding, as performed
by `base64.b64encode`. -/
def b64encode : List Nat → List Char
  | [] => []
  | [a] => [b64Char (a / 4), b64Char (a % 4 * 16), '=', '=']
  | [a, b] => [b64Char (a / 4), b64Char (a % 4 * 16 + b / 16), b64Char (b % 16 * 4), '=']
  | a :: b :: c :: rest =>
      b64Char (a / 4) :: b64Char (a % 4 * 16 + b / 16)
        :: b64Char (b % 16 * 4 + c / 64) :: b64Char (c % 64) :: b64encode rest

/-- `image_to_base64(filepath)`: read the file's bytes and base64-encode
them; on `FileNotFoundError` or any other read error, log and return `None`.
The filesystem is passed explicitly as a map from path to read outcome. -/
def image_to_base64 (fs : String → FileReadResult) (filepath : String) : Option String :=
  match fs filepath with
  | FileReadResult.notFound => none
  | FileReadResult.readError => none
  | FileReadResult.ok bytes => some (String.mk (b64encode bytes))

/-! ### Request payload -/

/-- The fixed system instruction string sent with every request. -/
def system_instruction : String :=
  "You are an OCR and data extraction expert focused on identifying Egyptian National "
  ++ "ID numbers (14 digits) from images. The number is typically written in Eastern "
  ++ "Arabic numerals. You MUST find the 14-digit sequence, convert it to Western Arabic "
  ++ "numerals (0-9), and return *only* the 14-digit string. Do not include spaces, "
  ++ "explanations, or any surrounding text. The required length is exactly 14 characters."

/-- The fixed user query string sent with every request. -/
def user_query : String := "Extract the 14-digit National ID from the image."

/-- One part of a request: either a text part or an inline-data part tagged
with a MIME type. -/
inductive PayloadPart where
  | textPart (text : String)
  | inlineDataPart (mimeType : String) (data : String)
  deriving DecidableEq

/-- The structured request payload: one user-role content with a text part
and an inline image part, plus a system instruction. -/
structure RequestPayload where
  contents_role : String
  contents_parts : List PayloadPart
  systemInstruction_parts : List PayloadPart
  deriving DecidableEq

/-- Builds the request payload from the base64 image string, exactly as the
`payload = { ... }` literal in `extract_id_from_image`. -/
def build_payload (base64_image : String) : RequestPayload :=
  { contents_role := "user"
    contents_parts :=
      [PayloadPart.textPart user_query,
       PayloadPart.inlineDataPart "image/jpeg" base64_image]
    systemInstruction_parts := [PayloadPart.textPart system_instruction] }

/-! ### Responses, attempts and the retry loop -/

/-- One text part of a generated response. -/
structure GeminiPart where
  text : String
  deriving DecidableEq

/-- The content of one candidate: a list of parts. -/
structure GeminiContent where
  parts : List GeminiPart
  deriving DecidableEq

/-- One candidate of a response. -/
structure GeminiCandidate where
  content : GeminiContent
  deriving DecidableEq

/-- A parsed JSON response body: a list of candidates (empty when the
`candidates` key is absent or empty). -/
structure GeminiResponse where
  candidates : List GeminiCandidate
  deriving DecidableEq

/-- The outcome of one HTTP POST attempt: `raise_for_status` raises an
`HTTPError` carrying the status code; any other exception (connection
failure, malformed JSON, missing keys) is a generic exception; otherwise a
parsed response body is available. -/
inductive AttemptOutcome where
  | httpError (status : Nat)
  | exception
  | ok (response : GeminiResponse)
  deriving DecidableEq

/-- The print statements of `extract_id_from_image`, as abstract events. -/
inductive LogEvent where
  | attemptMsg (n : Nat)          -- "Attempting API call (Attempt n/5)..."
  | httpErrorMsg (status : Nat)   -- "HTTP Error: ..."
  | retryingMsg (delay : Nat)     -- "Retrying in delay seconds..."
  | unexpectedErrorMsg            -- "Unexpected error: ..."
  | noContentMsg                  -- "API response did not contain valid content."
  | successMsg                    -- "Extraction successful."
  | fallbackMsg                   -- "Extracted string not 14 digits. Using manual conversion fallback."
  | failedAfterRetriesMsg         -- "API call failed after multiple retries."
  deriving DecidableEq

/-- Trace of the retry loop: how many POST attempts were made, which sleep
delays were performed (in seconds, in order), which messages were logged,
and the value returned. -/
structure CallTrace where
  attempts : Nat
  sleeps : List Nat
  log : List LogEvent
  result : Option String
  deriving DecidableEq

/-- Handling of a successfully parsed response body (the `try` body after
`response.json()`): if there is no candidate, log "no content" and return
`None`; if the first candidate's content has no part, the subscript raises
and the generic handler returns `None`; otherwise strip the first part's
text, keep its Python-digit characters, return them when exactly 14 remain,
and otherwise fall back to `manual_conversion_fallback` on the stripped
text. -/
def handleResponse (resp : GeminiResponse) : CallTrace :=
  match resp.candidates with
  | [] => { attempts := 1, sleeps := [], log := [LogEvent.noContentMsg], result := none }
  | cand :: _ =>
    match cand.content.parts with
    | [] => { attempts := 1, sleeps := [], log := [LogEvent.unexpectedErrorMsg], result := none }
    | part :: _ =>
      let text := pyStrip part.text
      let cleaned_id := String.mk (text.data.filter pyIsDigit)
      if cleaned_id.length = 14 then
        { attempts := 1, sleeps := [], log := [LogEvent.successMsg], result := some cleaned_id }
      else
        { attempts := 1, sleeps := [], log := [LogEvent.fallbackMsg],
          result := manual_conversion_fallback text }

/-- `max_retries = 5`. -/
def max_retries : Nat := 5

/-- The retry loop `for attempt in range(max_retries)`, with `fuel` the
number of loop iterations still available and `attempt` the current
0-indexed attempt number.  Fuel 0 is the normal exit of the `for` loop: the
code after it logs "failed after multiple retries" and returns `None`.  An
`HTTPError` whose status is in {429, 500, 503} while `attempt <
max_retries - 1` sleeps `2 ^ attempt` seconds and continues with the next
attempt; any other `HTTPError` and any other exception return `None` at
once. -/
def apiLoopAux (outcome : Nat → AttemptOutcome) : Nat → Nat → CallTrace
  | 0, _ =>
      { attempts := 0, sleeps := [], log := [LogEvent.failedAfterRetriesMsg], result := none }
  | fuel + 1, attempt =>
    match outcome attempt with
    | AttemptOutcome.ok resp =>
        let h := handleResponse resp
        { h with log := LogEvent.attemptMsg (attempt + 1) :: h.log }
    | AttemptOutcome.exception =>
        { attempts := 1, sleeps := [],
          log := [LogEvent.attemptMsg (attempt + 1), LogEvent.unexpectedErrorMsg],
          result := none }
    | AttemptOutcome.httpError s =>
        if (s = 429 ∨ s = 500 ∨ s = 503) ∧ attempt < max_retries - 1 then
          let delay := 2 ^ attempt
          let rest := apiLoopAux outcome fuel (attempt + 1)
          { attempts := rest.attempts + 1,
            sleeps := delay :: rest.sleeps,
            log := LogEvent.attemptMsg (attempt + 1) :: LogEvent.httpErrorMsg s
                     :: LogEvent.retryingMsg delay :: rest.log,
            result := rest.result }
        else
          { attempts := 1, sleeps := [],
            log := [LogEvent.attemptMsg (attempt + 1), LogEvent.httpErrorMsg s],
            result := none }

/-- The whole retry loop of `extract_id_from_image`, starting at attempt 0
with `max_retries` iterations available. -/
def runApiLoop (outcome : Nat → AttemptOutcome) : CallTrace :=
  apiLoopAux outcome max_retries 0

/-! ### The orchestrator -/

/-- Trace of one whole `extract_id_from_image` call: the payload built (if
any), the POST attempts made, the sleeps, the loop's log and the returned
value. -/
structure ExtractTrace where
  payload : Option RequestPayload
  attempts : Nat
  sleeps : List Nat
  log : List LogEvent
  result : Option String
  deriving DecidableEq

/-- `extract_id_from_image(image_path)`: load and base64-encode the image
(`if not base64_image: return None` — note this treats the empty string
like `None`), build the payload, then run the retry loop.  The filesystem
and the per-attempt network outcomes are explicit parameters. -/
def extract_id_from_image (fs : String → FileReadResult)
    (outcome : Nat → AttemptOutcome) (image_path : String) : ExtractTrace :=
  match image_to_base64 fs image_path with
  | none =>
      { payload := none, attempts := 0, sleeps := [], log := [], result := none }
  | some base64_image =>
      if base64_image = "" then
        { payload := none, attempts := 0, sleeps := [], log := [], result := none }
      else
        let t := runApiLoop outcome
        { payload := some (build_payload base64_image),
          attempts := t.attempts, sleeps := t.sleeps, log := t.log, result := t.result }

/-! ### Configuration gate and main -/

/-- The placeholder sentinel for the API key. -/
def PLACEHOLDER_KEY : String := "PUT_YOUR_API_KEY_HERE"

/-- `API_KEY = os.environ.get('GEMINI_API_KEY', 'PUT_YOUR_API_KEY_HERE')`,
with the process environment passed explicitly. -/
def API_KEY (env : String → Option String) : String :=
  (env "GEMINI_API_KEY").getD PLACEHOLDER_KEY

/-- Trace of the `__main__` block: whether the configuration error was
printed, whether `extract_id_from_image` was started, and the attempts and
result of the extraction when it ran. -/
structure MainTrace where
  configError : Bool
  extractionStarted : Bool
  attempts : Nat
  result : Option String
  deriving DecidableEq

/-- The `__main__` block: if `API_KEY` equals the placeholder (because the
environment variable is unset, or set to the placeholder itself), print the
configuration error and stop; otherwise run the extraction on the given
path. -/
def mainProgram (env : String → Option String) (fs : String → FileReadResult)
    (outcome : Nat → AttemptOutcome) (image_path : String) : MainTrace :=
  if API_KEY env = PLACEHOLDER_KEY then
    { configError := true, extractionStarted := false, attempts := 0, result := none }
  else
    let t := extract_id_from_image fs outcome image_path
    { configError := false, extractionStarted := true,
      attempts := t.attempts, result := t.result }

/-! ### Concrete fixtures used by witnesses and counterexamples -/

/-- A filesystem returning the same read outcome for every path. -/
def fsConst (r : FileReadResult) : String → FileReadResult := fun _ => r

/-- A network returning the same outcome on every attempt. -/
def outcomeConst (o : AttemptOutcome) : Nat → AttemptOutcome := fun _ => o

/-- A response with a single candidate carrying a single text part. -/
def respOfText (t : String) : GeminiResponse :=
  { candidates := [{ content := { parts := [{ text := t }] } }] }

/-! ### Helper lemmas -/

/-- Base64 encoding of a nonempty byte list is nonempty. -/
lemma b64encode_ne_nil (l : List Nat) (h : l ≠ []) : b64encode l ≠ [] := by
  match l with
  | [] => exact absurd rfl h
  | [a] => simp [b64encode]
  | [a, b] => simp [b64encode]
  | a :: b :: c :: rest => simp [b64encode]

/-- A string built from a nonempty character list is not the empty string. -/
lemma mk_ne_empty (l : List Char) (h : l ≠ []) : String.mk l ≠ "" := by
  intro he
  exact h (by simpa using congrArg String.data he)

/-- When the image file reads successfully with nonempty content, the
orchestrator builds the payload and delegates to the retry loop. -/
lemma extract_ok (fs : String → FileReadResult) (outcome : Nat → AttemptOutcome)
    (p : String) (bytes : List Nat) (hfs : fs p = FileReadResult.ok bytes)
    (hb : bytes ≠ []) :
    extract_id_from_image fs outcome p =
      { payload := some (build_payload (String.mk (b64encode bytes))),
        attempts := (runApiLoop outcome).attempts,
        sleeps := (runApiLoop outcome).sleeps,
        log := (runApiLoop outcome).log,
        result := (runApiLoop outcome).result } := by
  unfold extract_id_from_image image_to_base64
  rw [hfs]
  simp only [if_neg (mk_ne_empty _ (b64encode_ne_nil bytes hb))]

/-- A successful value of `manual_conversion_fallback` has length exactly 14
and consists of Python-digit characters. -/
lemma manual_conversion_fallback_some (text s : String)
    (h : manual_conversion_fallback text = some s) :
    s.length = 14 ∧ ∀ c ∈ s.data, pyIsDigit c = true := by
  unfold manual_conversion_fallback at h
  dsimp only at h
  split at h
  case isTrue hlen =>
    obtain rfl : String.mk ((((text.data.map ARABIC_TO_WESTERN_get)).filter pyIsDigit).take 14) = s :=
      Option.some.inj h
    constructor
    · show (((text.data.map ARABIC_TO_WESTERN_get).filter pyIsDigit).take 14).length = 14
      rw [List.length_take]
      exact Nat.min_eq_left hlen
    · intro c hc
      have hc₂ : c ∈ (text.data.map ARABIC_TO_WESTERN_get).filter pyIsDigit :=
        List.take_subset _ _ hc
      exact List.of_mem_filter hc₂
  case isFalse => exact absurd h (by simp)

/-- A successful value of `handleResponse` has length exactly 14 and
consists of Python-digit characters. -/
lemma handleResponse_result_some (resp : GeminiResponse) (s : String)
    (h : (handleResponse resp).result = some s) :
    s.length = 14 ∧ ∀ c ∈ s.data, pyIsDigit c = true := by
  unfold handleResponse at h
  match hc : resp.candidates with
  | [] => rw [hc] at h; exact absurd h (by simp)
  | cand :: _ =>
    rw [hc] at h
    dsimp only at h
    match hp : cand.content.parts with
    | [] => rw [hp] at h; exact absurd h (by simp)
    | part :: _ =>
      rw [hp] at h
      dsimp only at h
      split at h
      case isTrue hlen =>
        obtain rfl : String.mk ((pyStrip part.text).data.filter pyIsDigit) = s :=
          Option.some.inj h
        refine ⟨hlen, fun c hc₂ => List.of_mem_filter hc₂⟩
      case isFalse => exact manual_conversion_fallback_some _ _ h

/-- A successful result of the retry loop comes from handling some parsed
response body. -/
lemma apiLoopAux_result_some (outcome : Nat → AttemptOutcome) (fuel attempt : Nat)
    (s : String) (h : (apiLoopAux outcome fuel attempt).result = some s) :
    ∃ resp, (handleResponse resp).result = some s := by
  induction fuel generalizing attempt with
  | zero => exact absurd h (by simp [apiLoopAux])
  | succ n ih =>
    rw [apiLoopAux] at h
    match ho : outcome attempt with
    | AttemptOutcome.ok resp => rw [ho] at h; exact ⟨resp, h⟩
    | AttemptOutcome.exception => rw [ho] at h; exact absurd h (by simp)
    | AttemptOutcome.httpError st =>
      rw [ho] at h
      dsimp only at h
      split at h
      case isTrue => exact ih _ h
      case isFalse => exact absurd h (by simp)

/-- A successful result of the orchestrator is a successful result of the
retry loop. -/
lemma extract_result_some (fs : String → FileReadResult)
    (outcome : Nat → AttemptOutcome) (p s : String)
    (h : (extract_id_from_image fs outcome p).result = some s) :
    (runApiLoop outcome).result = some s := by
  unfold extract_id_from_image at h
  match hb : image_to_base64 fs p with
  | none => rw [hb] at h; exact absurd h (by simp)
  | some b64 =>
    rw [hb] at h
    dsimp only at h
    split at h
    case isTrue => exact absurd h (by simp)
    case isFalse => exact h

/-- The `ARABIC_TO_WESTERN` dict maps each Eastern Arabic numeral glyph to
an ASCII digit. -/
lemma eastern_get_ascii (c : Char) (h : isEasternArabicDigit c = true) :
    isAsciiDigit (ARABIC_TO_WESTERN_get c) = true := by
  simp only [isEasternArabicDigit, Bool.or_eq_true, beq_iff_eq] at h
  rcases h with ((((((((h | h) | h) | h) | h) | h) | h) | h) | h) | h <;> subst h <;> decide

/-- An ASCII digit is a Python digit. -/
lemma ascii_digit_py (c : Char) (h : isAsciiDigit c = true) : pyIsDigit c = true := by
  unfold isAsciiDigit at h
  unfold pyIsDigit
  simp [h]

/-- An Eastern Arabic numeral glyph is itself a Python digit. -/
lemma eastern_py (c : Char) (h : isEasternArabicDigit c = true) : pyIsDigit c = true := by
  simp only [isEasternArabicDigit, Bool.or_eq_true, beq_iff_eq] at h
  rcases h with ((((((((h | h) | h) | h) | h) | h) | h) | h) | h) | h <;> subst h <;> decide

/-- The `ARABIC_TO_WESTERN` dict leaves every non-Eastern-Arabic character
unchanged. -/
lemma non_eastern_get_id (c : Char) (h : isEasternArabicDigit c = false) :
    ARABIC_TO_WESTERN_get c = c := by
  simp only [isEasternArabicDigit, Bool.or_eq_false_iff, beq_eq_false_iff_ne, ne_eq] at h
  obtain ⟨⟨⟨⟨⟨⟨⟨⟨⟨h0, h1⟩, h2⟩, h3⟩, h4⟩, h5⟩, h6⟩, h7⟩, h8⟩, h9⟩ := h
  unfold ARABIC_TO_WESTERN_get
  rw [if_neg h0, if_neg h1, if_neg h2, if_neg h3, if_neg h4, if_neg h5,
    if_neg h6, if_neg h7, if_neg h8, if_neg h9]

/-- On a list whose members are Eastern Arabic glyphs or non-digits, mapping
the conversion dict and then filtering Python digits keeps exactly the
converted Eastern glyphs, in order. -/
lemma map_filter_eastern (l : List Char)
    (h : ∀ c ∈ l, isEasternArabicDigit c = true ∨ pyIsDigit c = false) :
    (l.map ARABIC_TO_WESTERN_get).filter pyIsDigit =
      (l.filter isEasternArabicDigit).map ARABIC_TO_WESTERN_get := by
  induction l with
  | nil => rfl
  | cons c t ih =>
    have ht : ∀ x ∈ t, isEasternArabicDigit x = true ∨ pyIsDigit x = false :=
      fun x hx => h x (List.mem_cons_of_mem _ hx)
    rcases h c (List.mem_cons_self _ _) with he | hd
    · have hpy : pyIsDigit (ARABIC_TO_WESTERN_get c) = true :=
        ascii_digit_py _ (eastern_get_ascii c he)
      simp [List.filter_cons, he, hpy, ih ht]
    · have hne : isEasternArabicDigit c = false := by
        cases htr : isEasternArabicDigit c
        · rfl
        · exact absurd (eastern_py c htr) (by simp [hd])
      simp [List.filter_cons, hne, non_eastern_get_id c hne, hd, ih ht]

/-- An attempt outcome the retry loop retries on: an HTTP error with status
429, 500 or 503. -/
def isRetryableFailure (o : AttemptOutcome) : Prop :=
  ∃ s, o = AttemptOutcome.httpError s ∧ (s = 429 ∨ s = 500 ∨ s = 503)

/-- An attempt outcome the loop gives up on at once: an HTTP error with any
other status, a non-HTTP exception, or a response without candidates. -/
def isNonRetryableFailure : AttemptOutcome → Prop
  | AttemptOutcome.httpError s => ¬(s = 429 ∨ s = 500 ∨ s = 503)
  | AttemptOutcome.exception => True
  | AttemptOutcome.ok resp => resp.candidates = []

/-- One retrying iteration of the loop: a retryable HTTP error with attempts
remaining sleeps `2 ^ attempt` seconds and continues. -/
lemma apiLoopAux_retry (outcome : Nat → AttemptOutcome) (fuel attempt s : Nat)
    (ho : outcome attempt = AttemptOutcome.httpError s)
    (hs : s = 429 ∨ s = 500 ∨ s = 503) (ha : attempt < max_retries - 1) :
    apiLoopAux outcome (fuel + 1) attempt =
      { attempts := (apiLoopAux outcome fuel (attempt + 1)).attempts + 1,
        sleeps := 2 ^ attempt :: (apiLoopAux outcome fuel (attempt + 1)).sleeps,
        log := LogEvent.attemptMsg (attempt + 1) :: LogEvent.httpErrorMsg s
                 :: LogEvent.retryingMsg (2 ^ attempt)
                 :: (apiLoopAux outcome fuel (attempt + 1)).log,
        result := (apiLoopAux outcome fuel (attempt + 1)).result } := by
  rw [apiLoopAux, ho]
  dsimp only
  rw [if_pos ⟨hs, ha⟩]

/-- A non-retrying iteration on an HTTP error: return `None` at once. -/
lemma apiLoopAux_stop (outcome : Nat → AttemptOutcome) (fuel attempt s : Nat)
    (ho : outcome attempt = AttemptOutcome.httpError s)
    (hstop : ¬((s = 429 ∨ s = 500 ∨ s = 503) ∧ attempt < max_retries - 1)) :
    apiLoopAux outcome (fuel + 1) attempt =
      { attempts := 1, sleeps := [],
        log := [LogEvent.attemptMsg (attempt + 1), LogEvent.httpErrorMsg s],
        result := none } := by
  rw [apiLoopAux, ho]
  dsimp only
  rw [if_neg hstop]

/-- With every attempt failing retryably, the loop makes exactly 5 attempts,
sleeps 1, 2, 4 and 8 seconds between them, and returns `None`. -/
lemma runApiLoop_all_retryable (outcome : Nat → AttemptOutcome)
    (h : ∀ i, i < 5 → isRetryableFailure (outcome i)) :
    (runApiLoop outcome).attempts = 5 ∧ (runApiLoop outcome).sleeps = [1, 2, 4, 8] ∧
      (runApiLoop outcome).result = none := by
  obtain ⟨s0, e0, r0⟩ := h 0 (by norm_num)
  obtain ⟨s1, e1, r1⟩ := h 1 (by norm_num)
  obtain ⟨s2, e2, r2⟩ := h 2 (by norm_num)
  obtain ⟨s3, e3, r3⟩ := h 3 (by norm_num)
  obtain ⟨s4, e4, r4⟩ := h 4 (by norm_num)
  have L4 := apiLoopAux_stop outcome 0 4 s4 e4 (fun hc => by
    have := hc.2
    simp [max_retries] at this)
  have L3 := apiLoopAux_retry outcome 1 3 s3 e3 r3 (by norm_num [max_retries])
  have L2 := apiLoopAux_retry outcome 2 2 s2 e2 r2 (by norm_num [max_retries])
  have L1 := apiLoopAux_retry outcome 3 1 s1 e1 r1 (by norm_num [max_retries])
  have L0 := apiLoopAux_retry outcome 4 0 s0 e0 r0 (by norm_num [max_retries])
  rw [L4] at L3
  rw [L3] at L2
  rw [L2] at L1
  rw [L1] at L0
  unfold runApiLoop max_retries
  rw [show (5 : Nat) = 4 + 1 from rfl, L0]
  norm_num

/-- The "failed after multiple retries" message is not among the messages
`handleResponse` can log. -/
lemma handleResponse_no_failedMsg (resp : GeminiResponse) :
    LogEvent.failedAfterRetriesMsg ∉ (handleResponse resp).log := by
  unfold handleResponse
  match resp.candidates with
  | [] => simp
  | cand :: _ =>
    dsimp only
    match cand.content.parts with
    | [] => simp
    | part :: _ =>
      dsimp only
      split <;> simp

/-- Started with matching fuel, the loop can never log "failed after
multiple retries": the last attempt's retry test fails and returns directly,
so the code after the loop is unreachable. -/
lemma apiLoopAux_no_failedMsg (outcome : Nat → AttemptOutcome) :
    ∀ fuel attempt, attempt + fuel = max_retries → 0 < fuel →
      LogEvent.failedAfterRetriesMsg ∉ (apiLoopAux outcome fuel attempt).log := by
  intro fuel
  induction fuel with
  | zero => intro attempt _ hpos; exact absurd hpos (by norm_num)
  | succ n ih =>
    intro attempt hsum _
    rw [apiLoopAux]
    match ho : outcome attempt with
    | AttemptOutcome.ok resp =>
      dsimp only
      intro hmem
      rcases List.mem_cons.mp hmem with hx | hx
      · exact absurd hx (by simp)
      · exact handleResponse_no_failedMsg resp hx
    | AttemptOutcome.exception => simp
    | AttemptOutcome.httpError s =>
      dsimp only
      split
      case isTrue hc =>
        intro hmem
        have hn : 0 < n := by
          have := hc.2
          simp only [max_retries] at this hsum
          omega
        have hrec := ih (attempt + 1) (by omega) hn
        rcases List.mem_cons.mp hmem with hx | hx
        · exact absurd hx (by simp)
        rcases List.mem_cons.mp hx with hy | hy
        · exact absurd hy (by simp)
        rcases List.mem_cons.mp hy with hz | hz
        · exact absurd hz (by simp)
        · exact hrec hz
      case isFalse => simp

/-- The loop as run by `extract_id_from_image` never logs "failed after
multiple retries", whatever the network does. -/
lemma runApiLoop_no_failedMsg (outcome : Nat → AttemptOutcome) :
    LogEvent.failedAfterRetriesMsg ∉ (runApiLoop outcome).log :=
  apiLoopAux_no_failedMsg outcome max_retries 0 rfl (by norm_num [max_retries])

/-- Whatever the filesystem and the network do, a whole
`extract_id_from_image` call never logs "failed after multiple retries". -/
lemma extract_no_failedMsg (fs : String → FileReadResult)
    (outcome : Nat → AttemptOutcome) (p : String) :
    LogEvent.failedAfterRetriesMsg ∉ (extract_id_from_image fs outcome p).log := by
  unfold extract_id_from_image
  match image_to_base64 fs p with
  | none => simp
  | some b64 =>
    dsimp only
    split
    · simp
    · exact runApiLoop_no_failedMsg outcome

/-! ### The claims -/

/-- C1 (counterexample): the extraction pipeline can produce a result whose
characters are not ASCII digits.  When the remote response's text is the 14
Eastern Arabic glyphs "١٢٣٤٥٦٧٨٩٠١٢٣٤", every one of them satisfies
Python's `str.isdigit`, so the direct path's digit filter keeps all 14 and
the pipeline returns the Eastern glyph string itself, which contains no
character in '0'–'9'. -/
theorem C1_counterexample :
    (extract_id_from_image (fsConst (FileReadResult.ok [1]))
        (outcomeConst (AttemptOutcome.ok (respOfText "١٢٣٤٥٦٧٨٩٠١٢٣٤"))) "id.jpg").result
        = some "١٢٣٤٥٦٧٨٩٠١٢٣٤" ∧
      ¬∀ c ∈ ("١٢٣٤٥٦٧٨٩٠١٢٣٤" : String).data, isAsciiDigit c = true := by
  constructor
  · decide
  · decide

/-- C1 (amended): for every image path, filesystem and sequence of remote
responses, if the extraction pipeline produces a result at all, that result
is a string of length exactly 14 whose characters all satisfy Python's
`str.isdigit` (they need not be the ASCII digits '0'–'9'); a partial or
over-length string is never returned to the caller. -/
theorem C1_digit_invariant (fs : String → FileReadResult)
    (outcome : Nat → AttemptOutcome) (p s : String)
    (h : (extract_id_from_image fs outcome p).result = some s) :
    s.length = 14 ∧ ∀ c ∈ s.data, pyIsDigit c = true := by
  obtain ⟨resp, hr⟩ :=
    apiLoopAux_result_some outcome max_retries 0 s (extract_result_some fs outcome p s h)
  exact handleResponse_result_some resp s hr

/-- C1 (witness): the invariant instantiated on a pipeline run that returns
"12345678901234". -/
theorem C1_witness :
    ("12345678901234" : String).length = 14 ∧
      ∀ c ∈ ("12345678901234" : String).data, pyIsDigit c = true :=
  C1_digit_invariant (fsConst (FileReadResult.ok [1]))
    (outcomeConst (AttemptOutcome.ok (respOfText "12345678901234"))) "id.jpg"
    "12345678901234" (by decide)

/-- C2 (counterexample): the Digit Normalizer does not follow the spec's
step (2).  On fourteen Extended Arabic-Indic (Persian) digits U+06F1 the
spec's steps discard every character (none is an ASCII digit after the
ten-entry Eastern Arabic conversion, which does not cover Persian glyphs)
and yield no result, while the source keeps them — Python's `str.isdigit`
accepts them — and returns the unconverted 14-glyph string. -/
theorem C2_counterexample :
    manual_conversion_fallback "۱۱۱۱۱۱۱۱۱۱۱۱۱۱" = some "۱۱۱۱۱۱۱۱۱۱۱۱۱۱" ∧
      digitNormalizerSpecWords "۱۱۱۱۱۱۱۱۱۱۱۱۱۱" = none ∧
      manual_conversion_fallback "۱۱۱۱۱۱۱۱۱۱۱۱۱۱" ≠
        digitNormalizerSpecWords "۱۱۱۱۱۱۱۱۱۱۱۱۱۱" := by
  refine ⟨by decide, by decide, by decide⟩

/-- C2 (amended): for every input string, `manual_conversion_fallback`
computes its result by (1) replacing each of the ten Eastern Arabic numeral
glyphs by its Western digit and leaving every other character unchanged,
(2) discarding every remaining character that is not a digit in Python's
`str.isdigit` sense (not only non-ASCII-digit characters), and (3)
returning the first 14 characters of the remaining sequence when its length
is at least 14, and no result otherwise. -/
theorem C2_normalizer_steps (text : String) :
    manual_conversion_fallback text = digitNormalizerSpecAmended text := rfl

/-- C3: on a response carrying the text `t`, when the Python-digit-filtered
content of the stripped text is exactly 14 characters long the pipeline
returns that filtered string directly, without the Eastern-Arabic-to-Western
conversion; otherwise it returns `manual_conversion_fallback` applied to
the stripped text, which does apply the conversion. -/
theorem C3_direct_vs_fallback (fs : String → FileReadResult)
    (outcome : Nat → AttemptOutcome) (p t : String) (bytes : List Nat)
    (hfs : fs p = FileReadResult.ok bytes) (hb : bytes ≠ [])
    (ho : outcome 0 = AttemptOutcome.ok (respOfText t)) :
    (extract_id_from_image fs outcome p).result =
      if (String.mk ((pyStrip t).data.filter pyIsDigit)).length = 14
      then some (String.mk ((pyStrip t).data.filter pyIsDigit))
      else manual_conversion_fallback (pyStrip t) := by
  rw [extract_ok fs outcome p bytes hfs hb]
  show (runApiLoop outcome).result = _
  unfold runApiLoop max_retries
  rw [show (5 : Nat) = 4 + 1 from rfl, apiLoopAux, ho]
  dsimp only [handleResponse, respOfText]
  by_cases hc : ((pyStrip t).data.filter pyIsDigit).length = 14
  · simp [hc, String.length]
  · simp [hc, String.length]

/-- C3 (witness): on a response whose stripped text is already exactly 14
Western digits, the pipeline returns them directly. -/
theorem C3_witness :
    (extract_id_from_image (fsConst (FileReadResult.ok [7]))
        (outcomeConst (AttemptOutcome.ok (respOfText " 99999999999999 "))) "id.jpg").result =
      if (String.mk ((pyStrip " 99999999999999 ").data.filter pyIsDigit)).length = 14
      then some (String.mk ((pyStrip " 99999999999999 ").data.filter pyIsDigit))
      else manual_conversion_fallback (pyStrip " 99999999999999 ") :=
  C3_direct_vs_fallback (fsConst (FileReadResult.ok [7]))
    (outcomeConst (AttemptOutcome.ok (respOfText " 99999999999999 "))) "id.jpg"
    " 99999999999999 " [7] rfl (by simp) rfl

/-- C4: when every attempt fails with a retryable status (429, 500 or 503),
the client makes exactly 5 POST attempts and never a 6th, sleeping
2^i seconds after 0-indexed attempt i for i = 0..3 (delays 1s, 2s, 4s, 8s;
attempt 4 is the last and is not retried), and then reports no result. -/
theorem C4_retry_bound (fs : String → FileReadResult)
    (outcome : Nat → AttemptOutcome) (p : String) (bytes : List Nat)
    (hfs : fs p = FileReadResult.ok bytes) (hb : bytes ≠ [])
    (h : ∀ i, i < 5 → isRetryableFailure (outcome i)) :
    (extract_id_from_image fs outcome p).attempts = 5 ∧
      (extract_id_from_image fs outcome p).sleeps = [1, 2, 4, 8] ∧
      (extract_id_from_image fs outcome p).result = none := by
  rw [extract_ok fs outcome p bytes hfs hb]
  exact runApiLoop_all_retryable outcome h

/-- C4 (witness): an endpoint always answering HTTP 503 is attempted
exactly 5 times with sleeps 1, 2, 4, 8, then reported failed. -/
theorem C4_witness :
    (extract_id_from_image (fsConst (FileReadResult.ok [7]))
        (outcomeConst (AttemptOutcome.httpError 503)) "id.jpg").attempts = 5 ∧
      (extract_id_from_image (fsConst (FileReadResult.ok [7]))
        (outcomeConst (AttemptOutcome.httpError 503)) "id.jpg").sleeps = [1, 2, 4, 8] ∧
      (extract_id_from_image (fsConst (FileReadResult.ok [7]))
        (outcomeConst (AttemptOutcome.httpError 503)) "id.jpg").result = none :=
  C4_retry_bound (fsConst (FileReadResult.ok [7]))
    (outcomeConst (AttemptOutcome.httpError 503)) "id.jpg" [7] rfl (by simp)
    (fun _ _ => ⟨503, rfl, by norm_num⟩)

/-- C5: when the first attempt fails non-retryably — an HTTP error status
outside {429, 500, 503}, a non-HTTP exception, or a well-formed response
with no candidate — the pipeline returns no result after exactly one
attempt, with no sleep and no further attempt. -/
theorem C5_no_retry_on_permanent (fs : String → FileReadResult)
    (outcome : Nat → AttemptOutcome) (p : String) (bytes : List Nat)
    (hfs : fs p = FileReadResult.ok bytes) (hb : bytes ≠ [])
    (h : isNonRetryableFailure (outcome 0)) :
    (extract_id_from_image fs outcome p).attempts = 1 ∧
      (extract_id_from_image fs outcome p).sleeps = [] ∧
      (extract_id_from_image fs outcome p).result = none := by
  rw [extract_ok fs outcome p bytes hfs hb]
  show (runApiLoop outcome).attempts = 1 ∧ (runApiLoop outcome).sleeps = [] ∧
    (runApiLoop outcome).result = none
  unfold runApiLoop max_retries
  rw [show (5 : Nat) = 4 + 1 from rfl]
  cases ho : outcome 0 with
  | httpError s =>
    rw [ho] at h
    simp only [isNonRetryableFailure] at h
    rw [apiLoopAux_stop outcome 4 0 s ho (fun hc => h hc.1)]
    exact ⟨rfl, rfl, rfl⟩
  | exception =>
    rw [apiLoopAux, ho]
    exact ⟨rfl, rfl, rfl⟩
  | ok resp =>
    rw [ho] at h
    simp only [isNonRetryableFailure] at h
    rw [apiLoopAux, ho]
    simp [handleResponse, h]

/-- C5 (witness): an endpoint answering HTTP 400 is attempted exactly once
and reported failed immediately. -/
theorem C5_witness :
    (extract_id_from_image (fsConst (FileReadResult.ok [7]))
        (outcomeConst (AttemptOutcome.httpError 400)) "id.jpg").attempts = 1 ∧
      (extract_id_from_image (fsConst (FileReadResult.ok [7]))
        (outcomeConst (AttemptOutcome.httpError 400)) "id.jpg").sleeps = [] ∧
      (extract_id_from_image (fsConst (FileReadResult.ok [7]))
        (outcomeConst (AttemptOutcome.httpError 400)) "id.jpg").result = none :=
  C5_no_retry_on_permanent (fsConst (FileReadResult.ok [7]))
    (outcomeConst (AttemptOutcome.httpError 400)) "id.jpg" [7] rfl (by simp)
    (by norm_num [isNonRetryableFailure, outcomeConst])

/-- C6: evaluation of the code at the failing input.  With every attempt
answering HTTP 503, the loop makes 5 attempts and returns no result, but
the "failed after multiple retries" message is NOT logged — and in fact no
run of the loop, and no whole pipeline run, can ever log it: the final
`print` after the `for` loop is unreachable, because the last attempt's
retry test `attempt < max_retries - 1` fails and the handler returns
directly. -/
theorem C6_exhaustion_message_unreachable :
    (runApiLoop (outcomeConst (AttemptOutcome.httpError 503))).attempts = 5 ∧
      (runApiLoop (outcomeConst (AttemptOutcome.httpError 503))).result = none ∧
      LogEvent.failedAfterRetriesMsg ∉
        (runApiLoop (outcomeConst (AttemptOutcome.httpError 503))).log ∧
      ∀ oc : Nat → AttemptOutcome,
        LogEvent.failedAfterRetriesMsg ∉ (runApiLoop oc).log ∧
      ∀ fs oc p, LogEvent.failedAfterRetriesMsg ∉ (extract_id_from_image fs oc p).log := by
  refine ⟨by decide, by decide, by decide, fun oc => ⟨runApiLoop_no_failedMsg oc, ?_⟩⟩
  exact extract_no_failedMsg

/-- C7: whenever the image file cannot be read (absent, or any other read
failure), `image_to_base64` returns no result and the orchestrator returns
no result without building a request payload and without any POST attempt. -/
theorem C7_missing_file (fs : String → FileReadResult)
    (outcome : Nat → AttemptOutcome) (p : String)
    (h : fs p = FileReadResult.notFound ∨ fs p = FileReadResult.readError) :
    image_to_base64 fs p = none ∧
      (extract_id_from_image fs outcome p).result = none ∧
      (extract_id_from_image fs outcome p).payload = none ∧
      (extract_id_from_image fs outcome p).attempts = 0 := by
  have hb : image_to_base64 fs p = none := by
    unfold image_to_base64
    rcases h with h | h <;> rw [h]
  refine ⟨hb, ?_, ?_, ?_⟩ <;> unfold extract_id_from_image <;> rw [hb]

/-- C7 (witness): a nonexistent path yields no result and no network
activity. -/
theorem C7_witness :
    image_to_base64 (fsConst FileReadResult.notFound) "missing.jpg" = none ∧
      (extract_id_from_image (fsConst FileReadResult.notFound)
        (outcomeConst (AttemptOutcome.httpError 503)) "missing.jpg").result = none ∧
      (extract_id_from_image (fsConst FileReadResult.notFound)
        (outcomeConst (AttemptOutcome.httpError 503)) "missing.jpg").payload = none ∧
      (extract_id_from_image (fsConst FileReadResult.notFound)
        (outcomeConst (AttemptOutcome.httpError 503)) "missing.jpg").attempts = 0 :=
  C7_missing_file (fsConst FileReadResult.notFound)
    (outcomeConst (AttemptOutcome.httpError 503)) "missing.jpg" (Or.inl rfl)

/-- C8: if the API key environment variable is unset or set to the
placeholder sentinel, the program reports the configuration error, starts
no extraction and attempts no network call. -/
theorem C8_config_gate (env : String → Option String) (fs : String → FileReadResult)
    (outcome : Nat → AttemptOutcome) (p : String)
    (h : env "GEMINI_API_KEY" = none ∨ env "GEMINI_API_KEY" = some PLACEHOLDER_KEY) :
    mainProgram env fs outcome p =
      { configError := true, extractionStarted := false, attempts := 0, result := none } := by
  have hk : API_KEY env = PLACEHOLDER_KEY := by
    unfold API_KEY
    rcases h with h | h <;> rw [h] <;> rfl
  unfold mainProgram
  rw [if_pos hk]

/-- C8 (witness): with the environment variable unset, the program stops at
the configuration gate. -/
theorem C8_witness :
    mainProgram (fun _ => none) (fsConst (FileReadResult.ok [7]))
        (outcomeConst (AttemptOutcome.httpError 503)) "id.jpg" =
      { configError := true, extractionStarted := false, attempts := 0, result := none } :=
  C8_config_gate (fun _ => none) (fsConst (FileReadResult.ok [7]))
    (outcomeConst (AttemptOutcome.httpError 503)) "id.jpg" (Or.inl rfl)

/-- C9: on any string made of Eastern Arabic numeral glyphs interspersed
with non-digit characters whose Eastern-glyph content is exactly 14, the
Digit Normalizer yields the 14-character Western transliteration (an
all-ASCII-digit string); in particular both "١٢٣٤٥٦٧٨٩٠١٢٣٤" and
"ID: ١٢٣-٤٥٦-٧٨٩-٠١٢-٣٤" normalize to "12345678901234". -/
theorem C9_eastern_transliteration :
    (∀ s : String,
        (∀ c ∈ s.data, isEasternArabicDigit c = true ∨ pyIsDigit c = false) →
        (s.data.filter isEasternArabicDigit).length = 14 →
        manual_conversion_fallback s =
            some (String.mk ((s.data.filter isEasternArabicDigit).map ARABIC_TO_WESTERN_get)) ∧
          ∀ c ∈ (s.data.filter isEasternArabicDigit).map ARABIC_TO_WESTERN_get,
            isAsciiDigit c = true) ∧
      manual_conversion_fallback "١٢٣٤٥٦٧٨٩٠١٢٣٤" = some "12345678901234" ∧
      manual_conversion_fallback "ID: ١٢٣-٤٥٦-٧٨٩-٠١٢-٣٤" = some "12345678901234" := by
  refine ⟨?_, by decide, by decide⟩
  intro s h1 h2
  have hmap : ((s.data.filter isEasternArabicDigit).map ARABIC_TO_WESTERN_get).length = 14 := by
    rw [List.length_map]; exact h2
  constructor
  · unfold manual_conversion_fallback
    dsimp only
    rw [map_filter_eastern s.data h1]
    rw [if_pos (show (String.mk ((s.data.filter isEasternArabicDigit).map
        ARABIC_TO_WESTERN_get)).length ≥ 14 from le_of_eq hmap.symm)]
    rw [show List.take 14 ((s.data.filter isEasternArabicDigit).map ARABIC_TO_WESTERN_get)
        = (s.data.filter isEasternArabicDigit).map ARABIC_TO_WESTERN_get
      from List.take_of_length_le (le_of_eq hmap)]
  · intro c hc
    obtain ⟨d, hd, rfl⟩ := List.mem_map.mp hc
    exact eastern_get_ascii d (List.of_mem_filter hd)

/-- C9 (witness): the general transliteration statement instantiated on the
pure Eastern Arabic 14-glyph string. -/
theorem C9_witness :
    manual_conversion_fallback "١٢٣٤٥٦٧٨٩٠١٢٣٤" =
        some (String.mk ((("١٢٣٤٥٦٧٨٩٠١٢٣٤" : String).data.filter
          isEasternArabicDigit).map ARABIC_TO_WESTERN_get)) ∧
      ∀ c ∈ (("١٢٣٤٥٦٧٨٩٠١٢٣٤" : String).data.filter
          isEasternArabicDigit).map ARABIC_TO_WESTERN_get, isAsciiDigit c = true :=
  C9_eastern_transliteration.1 "١٢٣٤٥٦٧٨٩٠١٢٣٤" (by decide) (by decide)

/-- C10: for an existing but empty image file, `image_to_base64` succeeds
with the empty string rather than no result, yet the orchestrator's
truthiness test (`if not base64_image`) treats that empty string as a load
failure: it returns no result without building a payload and without any
POST attempt. -/
theorem C10_empty_file (fs : String → FileReadResult)
    (outcome : Nat → AttemptOutcome) (p : String) (h : fs p = FileReadResult.ok []) :
    image_to_base64 fs p = some "" ∧
      (extract_id_from_image fs outcome p).result = none ∧
      (extract_id_from_image fs outcome p).payload = none ∧
      (extract_id_from_image fs outcome p).attempts = 0 := by
  have hb : image_to_base64 fs p = some "" := by
    unfold image_to_base64
    rw [h]
    rfl
  refine ⟨hb, ?_, ?_, ?_⟩ <;> unfold extract_id_from_image <;> rw [hb] <;> rfl

/-- C10 (witness): the empty-file behavior on a concrete filesystem. -/
theorem C10_witness :
    image_to_base64 (fsConst (FileReadResult.ok [])) "empty.jpg" = some "" ∧
      (extract_id_from_image (fsConst (FileReadResult.ok []))
        (outcomeConst (AttemptOutcome.httpError 503)) "empty.jpg").result = none ∧
      (extract_id_from_image (fsConst (FileReadResult.ok []))
        (outcomeConst (AttemptOutcome.httpError 503)) "empty.jpg").payload = none ∧
      (extract_id_from_image (fsConst (FileReadResult.ok []))
        (outcomeConst (AttemptOutcome.httpError 503)) "empty.jpg").attempts = 0 :=
  C10_empty_file (fsConst (FileReadResult.ok []))
    (outcomeConst (AttemptOutcome.httpError 503)) "empty.jpg" rfl

end IdExtractor
